import Mathlib

/-!
Shallow embedding of `rbc-statement-parser/main.py`: the account-resolution
heuristic cascade (`extract_account_from_pdf`, `extract_account_info`), the
batch driver of `main` (per-file results, flatten + stable sort by date),
`parse_config` and the empty-input exit check of `parse_args`.

Strings are modelled as `List Char`.  Python regular-expression searches are
modelled as recursive scans; for each pattern used by the source the character
classes of adjacent greedy atoms are disjoint, so greedy matching coincides
with taking maximal runs and no backtracking is needed (argued at each
definition).  Fallible collaborators (`read_pdf`, `json.load`) are modelled as
`Except` values supplied by the environment.
-/

namespace RBC

/-- Python `\s` (ASCII range): space, tab, newline, carriage return,
vertical tab, form feed. -/
def isPySpace (c : Char) : Bool :=
  c = ' ' || c = '\t' || c = '\n' || c = '\r' || c = '\x0b' || c = '\x0c'

/-- Characters accepted by the `[0-9-]` class of the account-number regex. -/
def isDashDigit (c : Char) : Bool :=
  c.isDigit || c = '-'

/-- Python `str.lower()` (ASCII model). -/
def lowerL (l : List Char) : List Char :=
  l.map Char.toLower

/-- Test that the first argument is a literal prefix of the second
(case-sensitive). -/
def startsWith : List Char → List Char → Bool
  | [], _ => true
  | _ :: _, [] => false
  | p :: ps, c :: cs => p = c && startsWith ps cs

/-- Case-insensitive literal prefix test (the pattern is given lower-case,
as in the source's `re.IGNORECASE` patterns). -/
def startsWithCI : List Char → List Char → Bool
  | [], _ => true
  | _ :: _, [] => false
  | p :: ps, c :: cs => p = c.toLower && startsWithCI ps cs

/-- Python `needle in hay` substring test. -/
def containsSub (needle : List Char) : List Char → Bool
  | [] => startsWith needle []
  | c :: cs => startsWith needle (c :: cs) || containsSub needle cs

/-- Match exactly `n` digits, returning the remainder of the input. -/
def matchDigits : Nat → List Char → Option (List Char)
  | 0, l => some l
  | _ + 1, [] => none
  | n + 1, c :: cs => if c.isDigit then matchDigits n cs else none

/-- Match a literal character sequence, returning the remainder. -/
def matchLit : List Char → List Char → Option (List Char)
  | [], l => some l
  | _ :: _, [] => none
  | p :: ps, c :: cs => if c = p then matchLit ps cs else none

/-- Match `\s+` greedily (at least one whitespace character), returning the
remainder.  In every use site the following atom is a digit or `*`, which is
never whitespace, so the greedy maximal run is the only viable choice. -/
def matchWs (l : List Char) : Option (List Char) :=
  if (l.takeWhile isPySpace).length > 0 then some (l.dropWhile isPySpace) else none

/-- One attempt of `account number[:\s]+([0-9-]+)` (IGNORECASE) anchored at
the head of `l`; returns the captured group.  `[:\s]` and `[0-9-]` are
disjoint classes, so both greedy runs are maximal runs. -/
def matchAccountNumberAt (l : List Char) : Option (List Char) :=
  if startsWithCI ("account number".data) l then
    let rest := l.drop 14
    let seps := rest.takeWhile (fun c => c = ':' || isPySpace c)
    let rest2 := rest.dropWhile (fun c => c = ':' || isPySpace c)
    let digs := rest2.takeWhile isDashDigit
    if seps.length > 0 && digs.length > 0 then some digs else none
  else none

/-- Model of `re.search(r'account number[:\s]+([0-9-]+)', text, re.IGNORECASE)`:
leftmost position wins. -/
def searchAccountNumber : List Char → Option (List Char)
  | [] => none
  | c :: cs =>
    match matchAccountNumberAt (c :: cs) with
    | some r => some r
    | none => searchAccountNumber cs

/-- The tail `\s+\d{5}-\d{7}` of the RBC-name regex, anchored at the head. -/
def matchTail57 (l : List Char) : Bool :=
  ((l.takeWhile isPySpace).length > 0) &&
    (match matchDigits 5 (l.dropWhile isPySpace) with
     | none => false
     | some r =>
       match r with
       | '-' :: r2 => (matchDigits 7 r2).isSome
       | _ => false)

/-- The lazy group body `[^\n]+?` of `(RBC [^\n]+?)\s+\d{5}-\d{7}`: the
shortest non-empty run of non-newline characters after which the tail
matches.  Returns the consumed characters. -/
def lazyBody : List Char → Option (List Char)
  | [] => none
  | c :: cs =>
    if c = '\n' then none
    else if matchTail57 cs then some [c]
    else
      match lazyBody cs with
      | some r => some (c :: r)
      | none => none

/-- One attempt of `(RBC [^\n]+?)\s+\d{5}-\d{7}` (IGNORECASE) anchored at the
head of `l`; returns the captured group (the actual text, preserving case). -/
def matchRBCAt (l : List Char) : Option (List Char) :=
  if startsWithCI ("rbc ".data) l then
    match lazyBody (l.drop 4) with
    | some b => some (l.take 4 ++ b)
    | none => none
  else none

/-- Model of `re.search(r'(RBC [^\n]+?)\s+\d{5}-\d{7}', text, re.IGNORECASE)`. -/
def searchRBCName : List Char → Option (List Char)
  | [] => none
  | c :: cs =>
    match matchRBCAt (c :: cs) with
    | some r => some r
    | none => searchRBCName cs

/-- One attempt of `(\d{4})\s+\d{2}\*\*\s+\*\*\*\*\s+(\d{4})` anchored at the
head of `l`; returns the second captured group (the trailing four digits). -/
def matchVisaAt (l : List Char) : Option (List Char) := do
  let r1 ← matchDigits 4 l
  let r2 ← matchWs r1
  let r3 ← matchDigits 2 r2
  let r4 ← matchLit ['*', '*'] r3
  let r5 ← matchWs r4
  let r6 ← matchLit ['*', '*', '*', '*'] r5
  let r7 ← matchWs r6
  let cap := r7.take 4
  if cap.length = 4 && cap.all Char.isDigit then some cap else none

/-- Model of `re.search(r'(\d{4})\s+\d{2}\*\*\s+\*\*\*\*\s+(\d{4})', text)`. -/
def searchVisa : List Char → Option (List Char)
  | [] => none
  | c :: cs =>
    match matchVisaAt (c :: cs) with
    | some r => some r
    | none => searchVisa cs

/-- Python `str.strip()` (ASCII whitespace model). -/
def stripL (l : List Char) : List Char :=
  ((l.dropWhile isPySpace).reverse.dropWhile isPySpace).reverse

/-- Model of `re.sub(r'TM$', '', name)`: drop a trailing literal `TM`. -/
def removeTM (l : List Char) : List Char :=
  if startsWith ['M', 'T'] l.reverse then l.dropLast.dropLast else l

/-- The content result of `extract_account_from_pdf`: the `result` dict with
keys `type`, `number`, `name` (each possibly `None`). -/
structure PdfInfo where
  type : Option (List Char)
  number : Option (List Char)
  name : Option (List Char)
deriving Repr, DecidableEq

/-- The final dict returned by `extract_account_info`. -/
structure AccountInfo where
  account_number : Option (List Char)
  account_type : Option (List Char)
  account_name : Option (List Char)
deriving Repr, DecidableEq

/-- The account-type content cascade of `extract_account_from_pdf`: ordered
case-insensitive phrase matching on the text head. -/
def detectType (pdf_text : List Char) : Option (List Char) :=
  if containsSub ("personal savings account statement".data) (lowerL pdf_text) then
    some ("savings".data)
  else if containsSub ("personal banking account statement".data) (lowerL pdf_text) then
    some ("chequing".data)
  else if containsSub ("visa".data) (lowerL pdf_text)
      || containsSub ("credit card".data) (lowerL pdf_text) then
    some ("visa".data)
  else none

/-- Model of `extract_account_from_pdf`.  The collaborator `read_pdf` is modelled as an
`Except`-valued input: `.error` stands for an exception raised while reading,
which the source's `try/except` swallows, leaving the all-`None` result. -/
def extract_account_from_pdf (readResult : Except Unit (List Char)) : PdfInfo :=
  match readResult with
  | .error _ => ⟨none, none, none⟩
  | .ok fullText =>
    let pdf_text := fullText.take 3000
    let type0 := detectType pdf_text
    let number0 := searchAccountNumber pdf_text
    let name0 := (searchRBCName pdf_text).map (fun n => removeTM (stripL n))
    let number1 :=
      if type0 = some ("visa".data) then
        match searchVisa pdf_text with
        | some last4 => some last4
        | none => number0
      else number0
    let name1 := if type0 = some ("visa".data) then some ("VISA".data) else name0
    ⟨type0, number1, name1⟩

/-- Model of `os.path.basename` (POSIX): the part of the path after the last `/`. -/
def basenameL (p : List Char) : List Char :=
  (p.reverse.takeWhile (fun c => c ≠ '/')).reverse

/-- Python falsiness of an optional string: `None` and `""` are falsy. -/
def falsy : Option (List Char) → Bool
  | none => true
  | some l => l.isEmpty

/-- Python `str.split()` with no argument: split on whitespace runs,
discarding empty pieces.  `acc` holds the characters of the current word in
reverse. -/
def pySplitAux (acc : List Char) : List Char → List (List Char)
  | [] => if acc.isEmpty then [] else [acc.reverse]
  | c :: cs =>
    if isPySpace c then
      if acc.isEmpty then pySplitAux [] cs else acc.reverse :: pySplitAux [] cs
    else pySplitAux (c :: acc) cs

/-- Python `str.split()` with no argument. -/
def pySplit (l : List Char) : List (List Char) :=
  pySplitAux [] l

/-- The `type_mapping` dict lookup with its `"chequing"` default. -/
def typeMapping (w : List Char) : List Char :=
  if w = ("daily".data) then ("chequing".data)
  else if w = ("savings".data) then ("savings".data)
  else if w = ("student".data) then ("chequing".data)
  else if w = ("chequing".data) then ("chequing".data)
  else ("chequing".data)

/-- The `if not account_type:` fallback block of `extract_account_info`. -/
def resolveType (type0 : Option (List Char)) (filename : List Char) :
    Option (List Char) :=
  if falsy type0 then
    if containsSub ("visa".data) (lowerL filename) then some ("visa".data)
    else
      let first_word :=
        match pySplit filename with
        | [] => ([] : List Char)
        | w :: _ => lowerL w
      some (typeMapping first_word)
  else type0

/-- The `if not account_number:` fallback block of `extract_account_info`,
given the already-updated `account_type`. -/
def resolveNumber (number0 : Option (List Char)) (account_type : Option (List Char))
    (filename : List Char) : Option (List Char) :=
  if falsy number0 then
    if account_type = some ("visa".data) then
      if (filename.take 4).length = 4 && (filename.take 4).all Char.isDigit then
        some (filename.take 4)
      else number0
    else
      match pySplit filename with
      | [] => none
      | w :: _ => some w
  else number0

/-- The `if not account_name:` fallback block of `extract_account_info`,
given the already-updated `account_type` and `account_number`. -/
def resolveName (name0 : Option (List Char)) (account_type : Option (List Char))
    (account_number : Option (List Char)) : Option (List Char) :=
  if falsy name0 then
    if account_type = some ("visa".data) then
      if !falsy account_number then
        some (("VISA ".data) ++ account_number.getD [])
      else some ("VISA".data)
    else if account_type = some ("savings".data) then some ("Savings".data)
    else some ("Chequing".data)
  else name0

/-- Model of `extract_account_info`: content-first resolution with filename fallbacks,
mirroring the source's three sequential fallback blocks. -/
def extract_account_info (readResult : Except Unit (List Char))
    (file_path : List Char) : AccountInfo :=
  let filename := basenameL file_path
  let pdf_info := extract_account_from_pdf readResult
  let account_type := resolveType pdf_info.type filename
  let account_number := resolveNumber pdf_info.number account_type filename
  let account_name := resolveName pdf_info.name account_type account_number
  ⟨account_number, account_type, account_name⟩

/-- A transaction as the aggregation step sees it: `sorted` in `main` keys
only on `date` (a totally ordered value, modelled as `Nat`); `payload`
stands for all the remaining fields and makes distinct transactions
distinguishable. -/
structure Tx where
  date : Nat
  payload : Nat
deriving Repr, DecidableEq

/-- The comparison used by `sorted(transactions, key=lambda tx: tx["date"])`. -/
def dateLe (a b : Tx) : Prop := a.date ≤ b.date

instance : DecidableRel dateLe := fun a b => Nat.decLe a.date b.date

instance : IsTotal Tx dateLe := ⟨fun a b => Nat.le_total a.date b.date⟩

instance : IsTrans Tx dateLe := ⟨fun _ _ _ h h2 => Nat.le_trans h h2⟩

/-- The aggregator of `main`: concatenate the per-document sequences in input
order (`transactions.extend(...)` in the file loop), then sort by `date`.
Python's `sorted` is a stable sort, embedded here as insertion sort, which is
stable. -/
def aggregate (perDoc : List (List Tx)) : List Tx :=
  List.insertionSort dateLe perDoc.flatten

/-- One `file_results` entry of `main`. -/
structure FileResult where
  file : List Char
  transaction_count : Nat
  processed : Bool
deriving Repr, DecidableEq

/-- The `file_results` list built by the loop of `main`: one entry per input
file, in input order. -/
def fileResults (parse : List Char → List Tx) (files : List (List Char)) :
    List FileResult :=
  files.map (fun f => ⟨f, (parse f).length, decide ((parse f).length > 0)⟩)

/-- Model of `summary.processed_files` of the data-mode output:
`sum(1 for fr in file_results if fr["processed"])`. -/
def processedFiles (frs : List FileResult) : Nat :=
  (frs.filter (fun fr => fr.processed)).length

/-- The diagnostic printed by `parse_args` when no input file is found. -/
def noFilesMsg : List Char :=
  ("No valid PDF files found in the specified directory.".data)

/-- The empty-input check of `parse_args`: with zero discovered files the
process prints a diagnostic and exits with status 1; otherwise the file list
is handed on. -/
def checkFiles (files : List (List Char)) :
    Except (Nat × List Char) (List (List Char)) :=
  if files.length = 0 then .error (1, noFilesMsg) else .ok files

/-- The batch pipeline of `main` after argument parsing: either the fatal
empty-input exit, or the per-file results together with the aggregated,
date-sorted transaction sequence. -/
def runBatch (parse : List Char → List Tx) (files : List (List Char)) :
    Except (Nat × List Char) (List FileResult × List Tx) :=
  match checkFiles files with
  | .error e => .error e
  | .ok fs => .ok (fileResults parse fs, aggregate (fs.map parse))

/-- The recognized configuration keys (spec §6); `{}` from the `except`
branch of `parse_config` reads back as all keys absent. -/
structure Config where
  categories : List (List Char × List Char)
  excludes : List (List Char)
  format : Option (List Char)
deriving Repr, DecidableEq

/-- The empty configuration: Python's `{}`, on which every `config.get`
yields `None`. -/
def emptyConfig : Config := ⟨[], [], none⟩

/-- Model of `parse_config`: the collaborator `json.load` (with the file open) is
modelled as an `Except`-valued input; any exception is swallowed and the
empty configuration returned. -/
def parse_config (readJson : Except Unit Config) : Config :=
  match readJson with
  | .ok c => c
  | .error _ => emptyConfig

/-! ### Helper lemmas -/

theorem filter_date_orderedInsert (d : Nat) (a : Tx) (l : List Tx) :
    (List.orderedInsert dateLe a l).filter (fun t => t.date == d) =
      (if a.date == d then [a] else []) ++ l.filter (fun t => t.date == d) := by
  induction l with
  | nil =>
    simp only [List.orderedInsert, List.filter_cons, List.filter_nil]
    by_cases h : (a.date == d) = true <;> simp [h]
  | cons b l ih =>
    simp only [List.orderedInsert]
    by_cases hab : dateLe a b
    · rw [if_pos hab]
      simp only [List.filter_cons]
      by_cases ha : (a.date == d) = true <;> simp [ha]
    · rw [if_neg hab]
      simp only [List.filter_cons]
      by_cases hb : (b.date == d) = true
      · have ha : ¬ (a.date == d) = true := by
          intro ha
          apply hab
          unfold dateLe
          have hb' : b.date = d := by simpa using hb
          have ha' : a.date = d := by simpa using ha
          omega
        simp [hb, ha, ih]
      · simp [hb, ih]

theorem filter_date_insertionSort (d : Nat) (l : List Tx) :
    (List.insertionSort dateLe l).filter (fun t => t.date == d) =
      l.filter (fun t => t.date == d) := by
  induction l with
  | nil => rfl
  | cons a l ih =>
    simp only [List.insertionSort]
    rw [filter_date_orderedInsert, ih, List.filter_cons]
    by_cases h : (a.date == d) = true <;> simp [h]

theorem resolveType_isSome (t0 : Option (List Char)) (fn : List Char) :
    (resolveType t0 fn).isSome := by
  unfold resolveType
  split
  · split <;> simp
  · rename_i h
    cases t0 with
    | none => exact absurd rfl h
    | some l => simp

theorem resolveName_isSome (n0 t n : Option (List Char)) :
    (resolveName n0 t n).isSome := by
  unfold resolveName
  split
  · split
    · split <;> simp
    · split <;> simp
  · rename_i h
    cases n0 with
    | none => exact absurd rfl h
    | some l => simp

theorem detectType_cases (t : List Char) :
    detectType t = none ∨ detectType t = some ("savings".data) ∨
      detectType t = some ("chequing".data) ∨ detectType t = some ("visa".data) := by
  unfold detectType
  split
  · simp
  · split
    · simp
    · split <;> simp

theorem typeMapping_cases (w : List Char) :
    typeMapping w = ("chequing".data) ∨ typeMapping w = ("savings".data) := by
  unfold typeMapping
  split
  · simp
  · split
    · simp
    · split
      · simp
      · split <;> simp

theorem extract_from_pdf_type_cases (r : Except Unit (List Char)) :
    (extract_account_from_pdf r).type = none ∨
      (extract_account_from_pdf r).type = some ("savings".data) ∨
      (extract_account_from_pdf r).type = some ("chequing".data) ∨
      (extract_account_from_pdf r).type = some ("visa".data) := by
  cases r with
  | error e => left; rfl
  | ok t =>
    have h : (extract_account_from_pdf (.ok t)).type = detectType (t.take 3000) := rfl
    rw [h]
    exact detectType_cases _

theorem matchAccountNumberAt_pos {l r : List Char}
    (h : matchAccountNumberAt l = some r) : 0 < r.length := by
  unfold matchAccountNumberAt at h
  split at h
  · dsimp only at h
    split at h
    · rename_i hcond
      injection h with h
      subst h
      exact Nat.lt_of_lt_of_le (Nat.zero_lt_succ 0) (by
        simp only [Bool.and_eq_true, decide_eq_true_eq] at hcond
        omega)
    · exact absurd h (by simp)
  · exact absurd h (by simp)

theorem searchAccountNumber_pos :
    ∀ {l r : List Char}, searchAccountNumber l = some r → 0 < r.length := by
  intro l
  induction l with
  | nil => intro r h; exact absurd h (by simp [searchAccountNumber])
  | cons c cs ih =>
    intro r h
    unfold searchAccountNumber at h
    revert h
    split
    · rename_i hm
      intro h
      injection h with h
      subst h
      exact matchAccountNumberAt_pos hm
    · intro h
      exact ih h

/-! ### Claim theorems -/

/-- C1: for every batch, the aggregated transaction sequence is sorted by
`date` in non-decreasing order and is a stable permutation of the
concatenation of the per-document sequences taken in input-file order: it is
a permutation of that concatenation (every transaction appears exactly once),
and for every date the subsequence of transactions carrying that date is
exactly the one of the concatenation (equal-date transactions keep their
relative order). -/
theorem aggregate_sorted_stable_perm (perDoc : List (List Tx)) :
    List.Sorted dateLe (aggregate perDoc) ∧
    List.Perm (aggregate perDoc) perDoc.flatten ∧
    ∀ d : Nat,
      (aggregate perDoc).filter (fun t => t.date == d) =
        perDoc.flatten.filter (fun t => t.date == d) :=
  ⟨List.sorted_insertionSort dateLe _, List.perm_insertionSort dateLe _,
    fun d => filter_date_insertionSort d _⟩

/-- C2 (counterexample): for the document `"Savings Statement.pdf"` with a
text head matching no account-type phrase, no RBC name line and no account
number line (here: the empty head, on which the content stage yields the
all-None result), the resolved account number is NOT null — refuting the
claimed `number null`. -/
theorem savings_scenario_number_not_null :
    extract_account_from_pdf (.ok []) = ⟨none, none, none⟩ ∧
    (extract_account_info (.ok []) ("Savings Statement.pdf".data)).account_number ≠
      none := by
  exact ⟨by decide, by decide⟩

/-- C2 (amended): for a document named `"Savings Statement.pdf"` whose text
head matches no account-type phrase, no RBC name line and no account-number
line (i.e. the content stage yields the all-None result), resolution yields
type `savings` via the filename token, account number `"Savings"` (the
filename's first whitespace-delimited token, taken verbatim by the
chequing/savings filename fallback), and account name `"Savings"`. -/
theorem savings_scenario_resolution (text : List Char)
    (h : extract_account_from_pdf (.ok text) = ⟨none, none, none⟩) :
    extract_account_info (.ok text) ("Savings Statement.pdf".data) =
      ⟨some ("Savings".data), some ("savings".data), some ("Savings".data)⟩ := by
  simp only [extract_account_info, h]
  decide

/-- C2 (witness): the empty text head satisfies the premise, and the amended
resolution result follows by the theorem. -/
theorem savings_scenario_resolution_witness :
    extract_account_from_pdf (.ok []) = ⟨none, none, none⟩ ∧
    extract_account_info (.ok []) ("Savings Statement.pdf".data) =
      ⟨some ("Savings".data), some ("savings".data), some ("Savings".data)⟩ :=
  ⟨by decide, savings_scenario_resolution [] (by decide)⟩

/-- C3 (counterexample): a document named `"1234 Visa.pdf"` whose text head
contains the masked card string `"1234 56** **** 7890"` but nothing else: the
content stage does not resolve the type to visa (the head contains neither
"visa" nor "credit card" nor a statement phrase), so the masked-card number
extraction never runs; resolution takes the filename fallback `"1234"` and
name `"VISA 1234"`, refuting the claimed number `"7890"` and name `"VISA"`. -/
theorem visa_scenario_counterexample :
    containsSub ("1234 56** **** 7890".data) ("1234 56** **** 7890".data) = true ∧
    extract_account_info (.ok ("1234 56** **** 7890".data)) ("1234 Visa.pdf".data) =
      ⟨some ("1234".data), some ("visa".data), some ("VISA 1234".data)⟩ ∧
    (extract_account_info (.ok ("1234 56** **** 7890".data))
        ("1234 Visa.pdf".data)).account_number ≠ some ("7890".data) := by
  refine ⟨by decide, by decide, by decide⟩

/-- C3 (amended): for a document named `"1234 Visa.pdf"` whose text head both
resolves to type visa in the content stage (e.g. it contains "visa") and
matches the masked card pattern with trailing group `"7890"`, the account
number resolves to `"7890"` from content — the filename fallback `"1234"` is
not used — and the account name is `"VISA"`. -/
theorem visa_scenario_content_number (text : List Char)
    (hv : detectType (text.take 3000) = some ("visa".data))
    (hm : searchVisa (text.take 3000) = some ("7890".data)) :
    (extract_account_info (.ok text) ("1234 Visa.pdf".data)).account_number =
      some ("7890".data) ∧
    (extract_account_info (.ok text) ("1234 Visa.pdf".data)).account_name =
      some ("VISA".data) := by
  have hpdf : extract_account_from_pdf (.ok text) =
      ⟨some ("visa".data), some ("7890".data), some ("VISA".data)⟩ := by
    simp [extract_account_from_pdf, hv, hm]
  constructor <;> · simp only [extract_account_info, hpdf]; decide

/-- C3 (witness): a text head containing the visa phrase and the masked card
string satisfies both premises. -/
theorem visa_scenario_content_number_witness :
    detectType (("visa 1234 56** **** 7890".data).take 3000) = some ("visa".data) ∧
    searchVisa (("visa 1234 56** **** 7890".data).take 3000) = some ("7890".data) ∧
    (extract_account_info (.ok ("visa 1234 56** **** 7890".data))
        ("1234 Visa.pdf".data)).account_number = some ("7890".data) ∧
    (extract_account_info (.ok ("visa 1234 56** **** 7890".data))
        ("1234 Visa.pdf".data)).account_name = some ("VISA".data) :=
  ⟨by decide, by decide,
    (visa_scenario_content_number _ (by decide) (by decide)).1,
    (visa_scenario_content_number _ (by decide) (by decide)).2⟩

/-- C4 (counterexample): a document whose text head is
`"visa account number: 123-456"` is content-resolved as visa and contains no
masked card pattern, yet the content stage takes its account number
`"123-456"` from the `account number:` line — that rule is applied to every
document, not only chequing/savings ones — so resolution does not fall back
to the filename rule or null, refuting the claim. -/
theorem visa_account_line_counterexample :
    detectType (("visa account number: 123-456".data).take 3000) = some ("visa".data) ∧
    searchVisa (("visa account number: 123-456".data).take 3000) = none ∧
    (extract_account_from_pdf (.ok ("visa account number: 123-456".data))).number =
      some ("123-456".data) ∧
    (extract_account_info (.ok ("visa account number: 123-456".data))
        ("x.pdf".data)).account_number = some ("123-456".data) := by
  refine ⟨by decide, by decide, by decide, by decide⟩

/-- C4 (amended): the `account number: <digits-and-dashes>` content rule is
applied to documents of every type; for a content-resolved visa document the
masked-card match, when it succeeds, overwrites that value, but a visa
document whose head has an `account number:` line and no masked card pattern
takes its number from that line (no filename fallback). -/
theorem visa_number_from_account_line (text path n : List Char)
    (hv : detectType (text.take 3000) = some ("visa".data))
    (hm : searchVisa (text.take 3000) = none)
    (hn : searchAccountNumber (text.take 3000) = some n) :
    (extract_account_info (.ok text) path).account_number = some n := by
  have hpdf : extract_account_from_pdf (.ok text) =
      ⟨some ("visa".data), some n, some ("VISA".data)⟩ := by
    simp [extract_account_from_pdf, hv, hm, hn]
  have hfal : falsy (some n) = false := by
    have hpos := searchAccountNumber_pos hn
    cases n with
    | nil => exact absurd hpos (by simp)
    | cons c cs => rfl
  simp only [extract_account_info, hpdf]
  show resolveNumber (some n) (resolveType (some ("visa".data)) (basenameL path))
      (basenameL path) = some n
  unfold resolveNumber
  rw [hfal]
  simp

/-- C4 (witness): the head `"visa account number: 123-456"` satisfies all
three premises with captured number `"123-456"`. -/
theorem visa_number_from_account_line_witness :
    detectType (("visa account number: 123-456".data).take 3000) = some ("visa".data) ∧
    searchAccountNumber (("visa account number: 123-456".data).take 3000) =
      some ("123-456".data) ∧
    (extract_account_info (.ok ("visa account number: 123-456".data))
        ("y.pdf".data)).account_number = some ("123-456".data) :=
  ⟨by decide, by decide,
    visa_number_from_account_line _ _ _ (by decide) (by decide) (by decide)⟩

/-- C5 (counterexample): a document whose text head is
`"RBC Advantage Banking 05172-5163878"` (no content type match) named
`"visa.pdf"` resolves to type visa via the filename, yet its account name is
`"RBC Advantage Banking"`, supplied by the RBC content name rule — refuting
the claim that a visa-typed document's name is always `"VISA"` or
`"VISA <number>"`. -/
theorem filename_visa_rbc_name_counterexample :
    extract_account_info (.ok ("RBC Advantage Banking 05172-5163878".data))
        ("visa.pdf".data) =
      ⟨none, some ("visa".data), some ("RBC Advantage Banking".data)⟩ := by
  decide

/-- C5 (amended): for every document whose CONTENT stage resolves the type to
visa, the resolved account name is the fixed literal `"VISA"` (the content
stage overwrites any RBC-rule name); when the visa type is inferred only from
the filename, the RBC content name rule can supply the name. -/
theorem content_visa_name_fixed (text path : List Char)
    (hv : detectType (text.take 3000) = some ("visa".data)) :
    (extract_account_info (.ok text) path).account_name = some ("VISA".data) := by
  have hname : (extract_account_from_pdf (.ok text)).name = some ("VISA".data) := by
    simp [extract_account_from_pdf, hv]
  show resolveName (extract_account_from_pdf (.ok text)).name _ _ = some ("VISA".data)
  rw [hname]
  rfl

/-- C5 (witness): a head containing only the word "visa" content-resolves to
visa and gets the fixed name. -/
theorem content_visa_name_fixed_witness :
    detectType (("visa".data).take 3000) = some ("visa".data) ∧
    (extract_account_info (.ok ("visa".data)) ("z.pdf".data)).account_name =
      some ("VISA".data) :=
  ⟨by decide, content_visa_name_fixed _ _ (by decide)⟩

/-- C6: in every batch, each input document yields exactly one FileResult (in
input order), whose `processed` flag equals `transaction_count > 0`, and the
summary's `processed_files` equals the number of FileResults with a positive
transaction count. -/
theorem fileResults_processed_spec (parse : List Char → List Tx)
    (files : List (List Char)) :
    (fileResults parse files).length = files.length ∧
    (fileResults parse files).all
      (fun fr => fr.processed == decide (fr.transaction_count > 0)) = true ∧
    processedFiles (fileResults parse files) =
      ((fileResults parse files).filter
        (fun fr => decide (fr.transaction_count > 0))).length := by
  refine ⟨by simp [fileResults], ?_, ?_⟩
  · simp [fileResults, List.all_eq_true]
  · unfold processedFiles
    congr 1
    apply List.filter_congr
    intro fr hfr
    simp only [fileResults, List.mem_map] at hfr
    obtain ⟨f, _, rfl⟩ := hfr
    rfl

/-- C7: account resolution never raises: an exception from the document-text
extraction collaborator is swallowed by the content stage into the all-None
no-match result, and for every read outcome and every path the resolution
returns a complete AccountInfo in which the type and name fields are always
resolved (the number may legitimately remain null). -/
theorem resolution_never_errors (r : Except Unit (List Char)) (path : List Char) :
    (∀ e : Unit, extract_account_from_pdf (.error e) = ⟨none, none, none⟩) ∧
    (extract_account_info r path).account_type.isSome = true ∧
    (extract_account_info r path).account_name.isSome = true := by
  refine ⟨fun e => rfl, ?_, ?_⟩
  · exact resolveType_isSome _ _
  · exact resolveName_isSome _ _ _

/-- C8: with zero input documents the batch pipeline terminates with exit
status 1 and the diagnostic message, independently of any parsing; with at
least one input document it proceeds and produces the per-file results and
the aggregated transactions. -/
theorem empty_input_behavior (parse : List Char → List Tx)
    (files : List (List Char)) :
    (files = [] → runBatch parse files = .error (1, noFilesMsg)) ∧
    (files ≠ [] →
      runBatch parse files =
        .ok (fileResults parse files, aggregate (files.map parse))) := by
  constructor
  · rintro rfl
    rfl
  · intro h
    unfold runBatch checkFiles
    rw [if_neg (by simpa using h)]

/-- C8 (witness): the empty batch exits with status 1 and the diagnostic; a
one-file batch proceeds. -/
theorem empty_input_behavior_witness :
    runBatch (fun _ => []) [] = .error (1, noFilesMsg) ∧
    runBatch (fun _ => []) [("a.pdf".data)] =
      .ok (fileResults (fun _ => []) [("a.pdf".data)],
        aggregate ([("a.pdf".data)].map (fun _ => []))) :=
  ⟨(empty_input_behavior (fun _ => []) []).1 rfl,
    (empty_input_behavior (fun _ => []) [("a.pdf".data)]).2 (by simp)⟩

/-- C9: any error from reading or parsing the configuration file is swallowed
and yields the empty configuration; a successful read is passed through, and
in neither case does configuration loading abort the invocation. -/
theorem parse_config_swallows (e : Unit) (c : Config) :
    parse_config (.error e) = emptyConfig ∧ parse_config (.ok c) = c :=
  ⟨rfl, rfl⟩

/-- C10: for every read outcome and path, the resolved account type is one of
`chequing`, `savings` and `visa`: neither null nor any other value (such as
the spec's `unresolved`) can occur, since the filename cascade always
produces a concrete type, defaulting to `chequing`. -/
theorem account_type_closed_set (r : Except Unit (List Char)) (path : List Char) :
    (extract_account_info r path).account_type = some ("chequing".data) ∨
    (extract_account_info r path).account_type = some ("savings".data) ∨
    (extract_account_info r path).account_type = some ("visa".data) := by
  show resolveType (extract_account_from_pdf r).type (basenameL path) = _ ∨
    resolveType (extract_account_from_pdf r).type (basenameL path) = _ ∨
    resolveType (extract_account_from_pdf r).type (basenameL path) = _
  rcases extract_from_pdf_type_cases r with h0 | h0 | h0 | h0 <;> rw [h0]
  · unfold resolveType
    rw [show falsy none = true from rfl, if_pos rfl]
    split
    · right; right; rfl
    · rcases typeMapping_cases
        (match pySplit (basenameL path) with
          | [] => ([] : List Char)
          | w :: _ => lowerL w) with hm | hm
      · left; exact congrArg some hm
      · right; left; exact congrArg some hm
  · right; left; rfl
  · left; rfl
  · right; right; rfl

end RBC
